import Mathlib

set_option maxRecDepth 100000
set_option maxHeartbeats 2000000

/-!
Verification development for the `logfire-pg` repository: a PostgreSQL
wire-protocol front-end for the Logfire HTTP query API.

The repository contains two substantive server implementations:
* `cmd/logfire_pg/main.go` — streaming Arrow transport (`arrowTypeToPgOid`
  over `arrow.DataType`, `arrowValueToInterface`, `auth`, `wireHandler`,
  `DetectPsqlCommandQuery`);
* an older JSON-buffered implementation (`executeQuery` decoding a JSON
  `QueryResponse`, a stricter `auth` validating the probe result shape, and
  `arrowTypeToPgOid` over the JSON type-descriptor encoding).

Both are embedded below.  Pure functions become Lean functions; the
upstream HTTP client is modelled as an oracle argument, and each stateful
entry point additionally returns the number of upstream invocations it
performed, mirroring the call sites in the Go source.
-/

namespace LogfirePg

/-! ## PostgreSQL OIDs (values from `github.com/lib/pq/oid`) -/

def T_bool : Nat := 16
def T_int8 : Nat := 20
def T_int4 : Nat := 23
def T_text : Nat := 25
def T_json : Nat := 114
def T__json : Nat := 199
def T_float8 : Nat := 701
def T__bool : Nat := 1000
def T__int4 : Nat := 1007
def T__text : Nat := 1009
def T__int8 : Nat := 1016
def T__float8 : Nat := 1022
def T_date : Nat := 1082
def T__date : Nat := 1182
def T_timestamptz : Nat := 1184

/-! ## Arrow data types (streaming transport)

`ArrowDT` models `arrow.DataType` as discriminated by `dt.ID()` in the
source's `switch`.  It contains every type ID that `arrowTypeToPgOid`
handles, plus a selection of further Arrow type IDs that fall to the
`default` branch (`UINT8`, `INT8`, `INT16`, `FLOAT32`, `BINARY`, `DATE64`,
`TIME64`, `STRUCT`). -/

inductive TimeUnit
  | second
  | millisecond
  | microsecond
  | nanosecond
deriving DecidableEq, Repr

inductive ArrowDT
  | astring
  | alargestring
  | abool
  | aint32
  | aint64
  | auint16
  | auint32
  | auint64
  | afloat64
  | adate32
  | atimestamp (unit : TimeUnit) (tz : String)
  | alist (elem : ArrowDT)
  | auint8
  | aint8
  | aint16
  | afloat32
  | abinary
  | adate64
  | atime64
  | astruct
deriving DecidableEq, Repr

/-- Embedding of `arrowTypeToPgOid` from `cmd/logfire_pg/main.go`
(lines 131–179).  The `LIST` case recursively maps the element type and
then converts the scalar OID to the corresponding array OID; every other
unhandled type ID reaches the `default` branch. -/
def arrowTypeToPgOid : ArrowDT → Except String Nat
  | .astring => .ok T_text
  | .alargestring => .ok T_text
  | .abool => .ok T_bool
  | .aint32 => .ok T_int4
  | .aint64 => .ok T_int8
  | .auint16 => .ok T_int4
  | .auint32 => .ok T_int8
  | .auint64 => .ok T_int8
  | .afloat64 => .ok T_float8
  | .adate32 => .ok T_date
  | .atimestamp _ _ => .ok T_timestamptz
  | .alist elem =>
    match arrowTypeToPgOid elem with
    | .error e => .error e
    | .ok innerOid =>
      if innerOid = T_text then .ok T__text
      else if innerOid = T_bool then .ok T__bool
      else if innerOid = T_int4 then .ok T__int4
      else if innerOid = T_int8 then .ok T__int8
      else if innerOid = T_float8 then .ok T__float8
      else if innerOid = T_date then .ok T__date
      else .error ("unsupported list inner type: " ++ toString innerOid)
  | _ => .error "unsupported arrow type"

def isErr {ε α : Type} : Except ε α → Bool
  | .error _ => true
  | .ok _ => false

instance {ε α : Type} [DecidableEq ε] [DecidableEq α] : DecidableEq (Except ε α)
  | .error a, .error b =>
    if h : a = b then .isTrue (by rw [h]) else .isFalse (by simp [h])
  | .error _, .ok _ => .isFalse (by simp)
  | .ok _, .error _ => .isFalse (by simp)
  | .ok a, .ok b =>
    if h : a = b then .isTrue (by rw [h]) else .isFalse (by simp [h])

/-! ## JSON values and the buffered (JSON) transport -/

/-- A decoded JSON value, as produced by Go's `encoding/json` into
`interface{}`: JSON numbers decode to `float64`; we carry their exact
numeric value as a rational. -/
inductive Jv
  | null
  | bool (b : Bool)
  | num (q : Rat)
  | str (s : String)
  | arr (xs : List Jv)
  | obj (fields : List (String × Jv))

/-- One column of the JSON `QueryResponse` (`Column` struct in the Go
source): name, type descriptor, nullability and the column's values. -/
structure Column where
  name : String
  datatype : Jv
  nullable : Bool
  values : List Jv

/-- The JSON response shape `{"columns": [...]}`. -/
structure QueryResponse where
  columns : List Column

/-- Go map lookup `m[k]` on a decoded JSON object, modelled on the
association list (first binding wins). -/
def objGet (fields : List (String × Jv)) (k : String) : Option Jv :=
  match fields with
  | [] => none
  | (k', v) :: rest => if k' = k then some v else objGet rest k

/-- Embedding of `arrowTypeToPgOid(columnName, datatype)` from the
JSON-buffered implementation (`src/unnamed/part_000`, lines 233–315):
string descriptors, `{"List": {... "datatype": <string> ...}}`,
`{"Timestamp": ...}`, and the bare `["Microsecond", "UTC"]` array form. -/
def arrowTypeToPgOidJ (columnName : String) (datatype : Jv) : Except String Nat :=
  match datatype with
  | .str typeStr =>
    if typeStr = "Utf8" then .ok T_text
    else if typeStr = "JSON" then .ok T_json
    else if typeStr = "Boolean" then .ok T_bool
    else if typeStr = "Int32" then .ok T_int4
    else if typeStr = "Int64" then .ok T_int8
    else if typeStr = "UInt16" then .ok T_int4
    else if typeStr = "UInt32" then .ok T_int8
    else if typeStr = "Float64" then .ok T_float8
    else if typeStr = "Date32" then .ok T_date
    else .error ("column '" ++ columnName ++ "' has unsupported datatype: " ++ typeStr)
  | .obj typeMap =>
    match objGet typeMap "List" with
    | some listDef =>
      match listDef with
      | .obj listMap =>
        match objGet listMap "datatype" with
        | some (.str innerType) =>
          if innerType = "Utf8" then .ok T__text
          else if innerType = "JSON" then .ok T__json
          else if innerType = "Boolean" then .ok T__bool
          else if innerType = "Int32" then .ok T__int4
          else if innerType = "Int64" then .ok T__int8
          else if innerType = "UInt16" then .ok T__int4
          else if innerType = "UInt32" then .ok T__int8
          else if innerType = "Float64" then .ok T__float8
          else if innerType = "Date32" then .ok T__date
          else .error ("column '" ++ columnName ++
            "' has unsupported List inner datatype: " ++ innerType)
        | _ => .error ("column '" ++ columnName ++ "' has invalid List definition")
      | _ => .error ("column '" ++ columnName ++ "' has invalid List definition")
    | none =>
      match objGet typeMap "Timestamp" with
      | some _ => .ok T_timestamptz
      | none => .error ("column '" ++ columnName ++ "' has unsupported complex datatype")
  | .arr typeArr =>
    if 2 ≤ typeArr.length then
      match typeArr.head? with
      | some (.str first) =>
        if first = "Microsecond" then .ok T_timestamptz
        else .error ("column '" ++ columnName ++ "' has unsupported array datatype")
      | _ => .error ("column '" ++ columnName ++ "' has unsupported array datatype")
    else .error ("column '" ++ columnName ++ "' has unsupported array datatype")
  | _ => .error ("column '" ++ columnName ++
      "' has invalid datatype format: expected string, map, or array")

/-! ## Authentication -/

/-- Outcome of `auth`: Go returns `(ctx, bool, error)`; `allow token`
models `(context.WithValue(ctx, readTokenCtxKey{}, password), true, nil)`
and `deny msg` models `(ctx, false, err)`. -/
inductive AuthOutcome
  | allow (boundToken : String)
  | deny (msg : String)
deriving DecidableEq, Repr

def AuthOutcome.isAllow : AuthOutcome → Bool
  | .allow _ => true
  | .deny _ => false

/-- Embedding of `auth` from the JSON-buffered implementation
(`src/unnamed/part_000`, lines 127–160).  `upstream sql token` is the
oracle standing for `executeQuery`; the second component counts how many
times it was invoked.  The probe result's shape is validated: exactly one
column, exactly one value, and that value a JSON number equal to 1. -/
def authJ (username password : String)
    (upstream : String → String → Except String QueryResponse) : AuthOutcome × Nat :=
  if username = "" then (.deny "username cannot be empty", 0)
  else
    match upstream "SELECT 1" password with
    | .error e => (.deny ("authentication failed: " ++ e), 1)
    | .ok queryResp =>
      if queryResp.columns.length ≠ 1 then
        (.deny ("expected 1 column, got " ++ toString queryResp.columns.length), 1)
      else
        let col0 := queryResp.columns.headD ⟨"", .null, false, []⟩
        if col0.values.length ≠ 1 then
          (.deny ("expected 1 value, got " ++ toString col0.values.length), 1)
        else
          match col0.values.headD .null with
          | .num v => if v ≠ 1 then (.deny "expected value 1", 1) else (.allow password, 1)
          | _ => (.deny "expected integer value", 1)

/-- Embedding of `auth` from the streaming implementation
(`cmd/logfire_pg/main.go`, lines 247–264).  The probe response body is
closed unread ("Close immediately as we just need to verify the token
works"), so the oracle's successful payload — here represented as the
decoded probe result — is discarded without inspection. -/
def authA (username password : String)
    (upstream : String → String → Except String QueryResponse) : AuthOutcome × Nat :=
  if username = "" then (.deny "username cannot be empty", 0)
  else
    match upstream "SELECT 1" password with
    | .error e => (.deny ("authentication failed: " ++ e), 1)
    | .ok _ => (.allow password, 1)

/-- The probe-shape predicate of the spec: exactly one column, exactly one
row, and the single value is the number 1. -/
def probeShapeOk (resp : QueryResponse) : Bool :=
  resp.columns.length = 1 &&
    (resp.columns.headD ⟨"", .null, false, []⟩).values.length = 1 &&
    (match (resp.columns.headD ⟨"", .null, false, []⟩).values.headD .null with
     | .num v => decide (v = 1)
     | _ => false)

/-! ## Client-tool interceptor (`DetectPsqlCommandQuery`) -/

/-- Go `unicode.IsSpace`: the ASCII white space characters plus the
Latin-1 and Unicode space code points. -/
def goIsSpace (c : Char) : Bool :=
  c = ' ' || c = '\t' || c = '\n' || (0xb ≤ c.toNat && c.toNat ≤ 0xd) ||
  c.toNat = 0x85 || c.toNat = 0xa0 || c.toNat = 0x1680 ||
  (0x2000 ≤ c.toNat && c.toNat ≤ 0x200a) ||
  c.toNat = 0x2028 || c.toNat = 0x2029 || c.toNat = 0x202f ||
  c.toNat = 0x205f || c.toNat = 0x3000

/-- Accumulating worker for `goFields`: `cur` is the current field read so
far, in reverse. -/
def goFieldsAux (cur : List Char) : List Char → List String
  | [] => if cur.isEmpty then [] else [String.mk cur.reverse]
  | c :: cs =>
    if goIsSpace c then
      if cur.isEmpty then goFieldsAux [] cs
      else String.mk cur.reverse :: goFieldsAux [] cs
    else goFieldsAux (c :: cur) cs

/-- Go `strings.Fields`: the substrings between runs of white space. -/
def goFields (s : String) : List String := goFieldsAux [] s.data

/-- `strings.Join(strings.Fields(query), " ")` — whitespace normalization
used by `DetectPsqlCommandQuery`. -/
def normalizeWs (s : String) : String := String.intercalate " " (goFields s)

/-- The exact `\dt` catalog query pattern from the source (already in
normalized form). -/
def dtPattern : String :=
  "SELECT n.nspname as \"Schema\", c.relname as \"Name\", CASE c.relkind WHEN 'r' THEN 'table' WHEN 'v' THEN 'view' WHEN 'm' THEN 'materialized view' WHEN 'i' THEN 'index' WHEN 'S' THEN 'sequence' WHEN 't' THEN 'TOAST table' WHEN 'f' THEN 'foreign table' WHEN 'p' THEN 'partitioned table' WHEN 'I' THEN 'partitioned index' END as \"Type\", pg_catalog.pg_get_userbyid(c.relowner) as \"Owner\" FROM pg_catalog.pg_class c LEFT JOIN pg_catalog.pg_namespace n ON n.oid = c.relnamespace LEFT JOIN pg_catalog.pg_am am ON am.oid = c.relam WHERE c.relkind IN ('r','p','') AND n.nspname <> 'pg_catalog' AND n.nspname !~ '^pg_toast' AND n.nspname <> 'information_schema' AND pg_catalog.pg_table_is_visible(c.oid) ORDER BY 1,2;"

/-- Literal part of the `\d <table>` regex before the capture group (the
escaped regex text with the escapes resolved). -/
def dLit1 : String :=
  "SELECT c.oid, n.nspname, c.relname FROM pg_catalog.pg_class c LEFT JOIN pg_catalog.pg_namespace n ON n.oid = c.relnamespace WHERE c.relname OPERATOR(pg_catalog.~) '^("

/-- Literal part of the `\d <table>` regex after the capture group. -/
def dLit2 : String :=
  ")$' COLLATE pg_catalog.default AND pg_catalog.pg_table_is_visible(c.oid) ORDER BY 2, 3;"

/-- Literal part of the `\d <schema.table>` regex between the two capture
groups. -/
def dsLit2 : String :=
  ")$' COLLATE pg_catalog.default AND n.nspname OPERATOR(pg_catalog.~) '^("

/-- Literal part of the `\d <schema.table>` regex after the second capture
group. -/
def dsLit3 : String := ")$' COLLATE pg_catalog.default ORDER BY 2, 3;"

/-- Match a literal prefix of a character list, returning the remainder. -/
def dropLit : List Char → List Char → Option (List Char)
  | [], s => some s
  | _ :: _, [] => none
  | l :: ls, c :: cs => if c = l then dropLit ls cs else none

/-- Read the maximal run of characters other than `)` (the capture group
`([^)]+)` of the source regexes, which is followed by a literal `)`).
Returns the run and the remainder; fails when the run is empty. -/
def captureAux (acc : List Char) : List Char → List Char × List Char
  | [] => (acc, [])
  | c :: cs => if c = ')' then (acc, c :: cs) else captureAux (acc ++ [c]) cs

def takeCapture (s : List Char) : Option (String × List Char) :=
  match captureAux [] s with
  | ([], _) => none
  | (run, rest) => some (String.mk run, rest)

/-- Anchored match of the `\d <table>` regex
`^…'\^\(([^)]+)\)\$' COLLATE … ORDER BY 2, 3;$` against a full string:
literal prefix, one non-`)` capture, literal suffix, end of input.
Returns the captured table name. -/
def dMatch (s : List Char) : Option String :=
  match dropLit dLit1.data s with
  | none => none
  | some r1 =>
    match takeCapture r1 with
    | none => none
    | some (t, r2) =>
      match dropLit dLit2.data r2 with
      | none => none
      | some r3 => if r3.isEmpty then some t else none

/-- Anchored match of the `\d <schema.table>` regex: the same prefix, a
table capture, a schema capture, and the trailing literal.  Returns
`(tableName, schemaName)` in the order of the regex's capture groups. -/
def dSchemaMatch (s : List Char) : Option (String × String) :=
  match dropLit dLit1.data s with
  | none => none
  | some r1 =>
    match takeCapture r1 with
    | none => none
    | some (t, r2) =>
      match dropLit dsLit2.data r2 with
      | none => none
      | some r3 =>
        match takeCapture r3 with
        | none => none
        | some (sch, r4) =>
          match dropLit dsLit3.data r4 with
          | none => none
          | some r5 => if r5.isEmpty then some (t, sch) else none

/-- Embedding of `DetectPsqlCommandQuery` (`cmd/logfire_pg/main.go`,
lines 71–100): whitespace-normalize, then try the exact `\dt` pattern, the
`\d <table>` regex, and the `\d <schema.table>` regex, in that order.
Returns `(detectedCommand, suggestedQuery, isPsqlCommand)`. -/
def DetectPsqlCommandQuery (query : String) : String × String × Bool :=
  let normalized := normalizeWs query
  if normalized = dtPattern then ("\\dt", "show tables;", true)
  else
    match dMatch normalized.data with
    | some tableName =>
      ("\\d " ++ tableName, "show columns from " ++ tableName ++ ";", true)
    | none =>
      match dSchemaMatch normalized.data with
      | some (tableName, schemaName) =>
        ("\\d " ++ schemaName ++ "." ++ tableName,
         "show columns from " ++ schemaName ++ "." ++ tableName ++ ";", true)
      | none => ("", "", false)

/-! ## IEEE-754 binary64 rounding of integers

Go's conversions `float64(int32/int64/uint16/uint32/uint64 value)` round
the integer to the nearest binary64 (ties to even).  For the 64-bit
integer range this is: exact below `2^53`, otherwise round to the nearest
multiple of the value's ulp `2^(bits - 53)`. -/

/-- Number of significant bits of a value below `2^64` (the integer widths
converted by the source), written as an explicit comparison chain so that
it evaluates by kernel reduction. -/
def bitsAbove53 (n : Nat) : Nat :=
  if n < 2 ^ 54 then 1
  else if n < 2 ^ 55 then 2
  else if n < 2 ^ 56 then 3
  else if n < 2 ^ 57 then 4
  else if n < 2 ^ 58 then 5
  else if n < 2 ^ 59 then 6
  else if n < 2 ^ 60 then 7
  else if n < 2 ^ 61 then 8
  else if n < 2 ^ 62 then 9
  else if n < 2 ^ 63 then 10
  else 11

/-- Round a natural number to the nearest binary64 value (ties to even);
exact for `n ≤ 2^53`. -/
def f64ofNat (n : Nat) : Nat :=
  if n ≤ 2 ^ 53 then n
  else
    let e := bitsAbove53 n
    let q := n / 2 ^ e
    let r := n % 2 ^ e
    let half := 2 ^ e / 2
    let q' := if half < r ∨ (r = half ∧ q % 2 = 1) then q + 1 else q
    q' * 2 ^ e

/-- Round an integer to the nearest binary64 value, as an exact rational
(binary64 values are carried as their exact rational value). -/
def f64ofInt (n : Int) : Rat :=
  if n < 0 then -(f64ofNat (-n).toNat : Rat) else (f64ofNat n.toNat : Rat)

/-! ## Temporal formatting

`arrowValueToInterface` renders a timestamp cell with
`arr.Value(rowIdx).ToTime(arrow.Microsecond).Format("2006-01-02T15:04:05.000000Z")`:
the raw value is interpreted as microseconds since the Unix epoch
(regardless of the column's declared unit), decomposed as a UTC civil
time, and printed with a fixed six-digit fraction and a literal `Z`. -/

/-- Gregorian civil date (year, month, day) from days since 1970-01-01
(the standard days-from-civil inverse used by `time.Time`'s calendar). -/
def civilFromDays (z0 : Int) : Int × Nat × Nat :=
  let z := z0 + 719468
  let era := Int.fdiv z 146097
  let doe := (z - era * 146097).toNat
  let yoe := (doe - doe / 1460 + doe / 36524 - doe / 146096) / 365
  let doy := doe - (365 * yoe + yoe / 4 - yoe / 100)
  let mp := (5 * doy + 2) / 153
  let d := doy - (153 * mp + 2) / 5 + 1
  let m := if mp < 10 then mp + 3 else mp - 9
  let y := (yoe : Int) + era * 400
  (if m ≤ 2 then y + 1 else y, m, d)

/-- One decimal digit character. -/
def digit (n : Nat) : Char := Char.ofNat (48 + n % 10)

/-- Two-digit zero-padded field (`"01"`, `"02"`, `"15"`, `"04"`, `"05"`). -/
def pad2 (n : Nat) : String := String.mk [digit (n / 10), digit n]

/-- Six-digit zero-padded microsecond fraction (`".000000"`). -/
def micro6 (n : Nat) : String :=
  String.mk [digit (n / 100000), digit (n / 10000), digit (n / 1000),
             digit (n / 100), digit (n / 10), digit n]

/-- Four-digit zero-padded year (`"2006"`), with a sign for negative years
and plain digits beyond four. -/
def year4 (y : Int) : String :=
  if y < 0 then "-" ++ year4Nat (-y).toNat else year4Nat y.toNat
where
  year4Nat (n : Nat) : String :=
    if n < 10000 then String.mk [digit (n / 1000), digit (n / 100), digit (n / 10), digit n]
    else toString n

/-- The total microseconds decomposed: `(days, secondOfDay, microOfSecond)`
by floor division (matching `time.Unix`'s normalization). -/
def tsSplit (v : Int) : Int × Nat × Nat :=
  let q := Int.fdiv v 1000000
  let r := (v - q * 1000000).toNat
  let days := Int.fdiv q 86400
  let secs := (q - days * 86400).toNat
  (days, secs, r)

/-- The date-and-time part (everything before the fraction) of the
timestamp rendering. -/
def tsDateTimePart (v : Int) : String :=
  let (days, secs, _) := tsSplit v
  let (y, m, d) := civilFromDays days
  year4 y ++ "-" ++ pad2 m ++ "-" ++ pad2 d ++ "T" ++
    pad2 (secs / 3600) ++ ":" ++ pad2 (secs / 60 % 60) ++ ":" ++ pad2 (secs % 60)

/-- `Timestamp(v).ToTime(arrow.Microsecond).Format("2006-01-02T15:04:05.000000Z")`:
interpret `v` as microseconds since the epoch, render the UTC civil time
with a six-digit fraction and a trailing literal `Z`. -/
def tsFormat (v : Int) : String :=
  tsDateTimePart v ++ "." ++ micro6 (tsSplit v).2.2 ++ "Z"

/-- `arr.Value(rowIdx).FormattedString()` for `Date32` columns: the epoch
day count rendered as `"2006-01-02"`. -/
def date32Format (d : Int) : String :=
  let (y, m, dd) := civilFromDays d
  year4 y ++ "-" ++ pad2 m ++ "-" ++ pad2 dd

/-! ## Arrow arrays and `arrowValueToInterface`

An Arrow column (`arrow.Array`) is modelled per concrete array type, as
discriminated by the source's type switch.  A cell is `none` when the
validity bitmap marks it null (`col.IsNull(rowIdx)`).  A `List` array
carries per-row value offsets `(start, end)` into a flat child array,
exactly as `arr.ValueOffsets(rowIdx)` / `arr.ListValues()` expose it.
`float64` cells are carried as their exact rational value. -/

inductive ACol
  | strCol (cells : List (Option String))
  | boolCol (cells : List (Option Bool))
  | int32Col (cells : List (Option Int))
  | int64Col (cells : List (Option Int))
  | uint16Col (cells : List (Option Nat))
  | uint32Col (cells : List (Option Nat))
  | uint64Col (cells : List (Option Nat))
  | float64Col (cells : List (Option Rat))
  | date32Col (cells : List (Option Int))
  | tsCol (unit : TimeUnit) (tz : String) (cells : List (Option Int))
  | listCol (offsets : List (Option (Nat × Nat))) (inner : ACol)
deriving DecidableEq

/-- `col.IsNull(rowIdx)`: the validity of the row's cell. -/
def ACol.isNull : ACol → Nat → Bool
  | .strCol cells, i => ((cells.get? i).getD none).isNone
  | .boolCol cells, i => ((cells.get? i).getD none).isNone
  | .int32Col cells, i => ((cells.get? i).getD none).isNone
  | .int64Col cells, i => ((cells.get? i).getD none).isNone
  | .uint16Col cells, i => ((cells.get? i).getD none).isNone
  | .uint32Col cells, i => ((cells.get? i).getD none).isNone
  | .uint64Col cells, i => ((cells.get? i).getD none).isNone
  | .float64Col cells, i => ((cells.get? i).getD none).isNone
  | .date32Col cells, i => ((cells.get? i).getD none).isNone
  | .tsCol _ _ cells, i => ((cells.get? i).getD none).isNone
  | .listCol offsets _, i => ((offsets.get? i).getD none).isNone

/-- `arr.Value(rowIdx)` for a cell known non-null (the default is never
reached on the paths the conversion takes). -/
def cellD {α : Type} (cells : List (Option α)) (i : Nat) (dflt : α) : α :=
  ((cells.get? i).getD none).getD dflt

/-- Nesting depth of a column, bounding the recursion of the conversion. -/
def ACol.depth : ACol → Nat
  | .listCol _ inner => inner.depth + 1
  | _ => 0

/-- The dynamic (`interface{}`) value the conversion returns: Go `nil`, a
string, a bool, or a float64.  List cells are returned as their JSON
string, so no aggregate constructor is needed. -/
inductive GoValue
  | nil
  | str (s : String)
  | bool (b : Bool)
  | float64 (x : Rat)
deriving DecidableEq

/-- Go `encoding/json` string escaping (with the encoder's default HTML
escaping of `<`, `>`, `&`, and ` `/` `). -/
def jsonEscapeChar (c : Char) : String :=
  if c = '"' then "\\\""
  else if c = '\\' then "\\\\"
  else if c = '\n' then "\\n"
  else if c = '\r' then "\\r"
  else if c = '\t' then "\\t"
  else if c.toNat < 0x20 then
    "\\u00" ++ String.mk [digit (c.toNat / 16), digit c.toNat] -- controls are < 0x20
  else if c = '<' then "\\u003c"
  else if c = '>' then "\\u003e"
  else if c = '&' then "\\u0026"
  else if c.toNat = 0x2028 then "\\u2028"
  else if c.toNat = 0x2029 then "\\u2029"
  else String.mk [c]

def jsonQuote (s : String) : String :=
  "\"" ++ String.join (s.data.map jsonEscapeChar) ++ "\""

/-- Base-2 logarithm by fuel-bounded halving (exact for powers of two,
which is all the dyadic denominators below supply). -/
def log2Fuel : Nat → Nat → Nat
  | 0, _ => 0
  | fuel + 1, n => if n ≤ 1 then 0 else log2Fuel fuel (n / 2) + 1

/-- Go `encoding/json` rendering of a float64 carried as an exact dyadic
rational: integral values print as plain integers (as Go's shortest
round-trip formatting does); fractional dyadic values print their exact
finite decimal expansion, which coincides with Go's shortest round-trip
output on the short fractions this program produces. -/
def floatJson (x : Rat) : String :=
  if x.den = 1 then toString x.num
  else
    let k := log2Fuel x.den x.den
    let scaled := x.num * (5 ^ k : Nat)
    let mag := scaled.natAbs
    let ipart := mag / 10 ^ k
    let fdigits := Nat.toDigits 10 (10 ^ k + mag % 10 ^ k) |>.drop 1
    (if scaled < 0 then "-" else "") ++ toString ipart ++ "." ++ String.mk fdigits

/-- `json.Marshal` of one element of the `listValues` slice. -/
def goJsonValue : GoValue → String
  | .nil => "null"
  | .str s => jsonQuote s
  | .bool b => if b then "true" else "false"
  | .float64 x => floatJson x

/-- `json.Marshal(listValues)` for the `[]interface{}` built in the `List`
case (the slice is created non-nil, so an empty list marshals to `[]`). -/
def goJsonArray (xs : List GoValue) : String :=
  "[" ++ String.intercalate "," (xs.map goJsonValue) ++ "]"

/-- Embedding of `arrowValueToInterface` (`cmd/logfire_pg/main.go`,
lines 181–226), structurally recursive on a fuel bound on the list
nesting depth (the wrapper below supplies a sufficient bound, so the
fuel-exhausted branch is never reached).

* a null cell returns Go `nil` before the type switch is consulted;
* integer cells are converted through `float64(...)`, i.e. binary64
  rounding;
* `Timestamp` cells are rendered via `ToTime(arrow.Microsecond)` — the
  column's declared unit and timezone are ignored;
* `List` cells convert the child range element by element and marshal the
  results as a JSON array string. -/
def convFuel : Nat → ACol → Nat → Except String GoValue
  | 0, _, _ => .error "list nesting exceeds fuel"
  | fuel + 1, col, rowIdx =>
    if col.isNull rowIdx then .ok .nil
    else
      match col with
      | .strCol cells => .ok (.str (cellD cells rowIdx ""))
      | .boolCol cells => .ok (.bool (cellD cells rowIdx false))
      | .int32Col cells => .ok (.float64 (f64ofInt (cellD cells rowIdx 0)))
      | .int64Col cells => .ok (.float64 (f64ofInt (cellD cells rowIdx 0)))
      | .uint16Col cells => .ok (.float64 (f64ofNat (cellD cells rowIdx 0) : Rat))
      | .uint32Col cells => .ok (.float64 (f64ofNat (cellD cells rowIdx 0) : Rat))
      | .uint64Col cells => .ok (.float64 (f64ofNat (cellD cells rowIdx 0) : Rat))
      | .float64Col cells => .ok (.float64 (cellD cells rowIdx 0))
      | .date32Col cells => .ok (.str (date32Format (cellD cells rowIdx 0)))
      | .tsCol _ _ cells => .ok (.str (tsFormat (cellD cells rowIdx 0)))
      | .listCol offsets inner =>
        let se := cellD offsets rowIdx (0, 0)
        match (List.range (se.2 - se.1)).mapM (fun j => convFuel fuel inner (se.1 + j)) with
        | .error e => .error e
        | .ok listValues => .ok (.str (goJsonArray listValues))

/-- `arrowValueToInterface(col, rowIdx)`: the conversion at a fuel bound
that the column's nesting depth can never exhaust. -/
def arrowValueToInterface (col : ACol) (rowIdx : Nat) : Except String GoValue :=
  convFuel (col.depth + 1) col rowIdx

/-! ## Session coordinator (`wireHandler` and the row-streaming handle) -/

/-- `psql-wire` error condition codes used by the source. -/
inductive ErrCode
  | featureNotSupported
  | syntaxErrorOrAccessRuleViolation
  | dataException
  | datatypeMismatch
deriving DecidableEq, Repr

/-- `psql-wire` error severities used by the source. -/
inductive Severity
  | levelError
  | levelFatal
deriving DecidableEq, Repr

/-- `psqlerr.WithSeverity(psqlerr.WithCode(err, code), severity)`. -/
structure WireError where
  code : ErrCode
  severity : Severity
  msg : String
deriving DecidableEq, Repr

/-- `wire.Column{Table: 0, Name: ..., Oid: ..., Width: 256}`. -/
structure WireColumn where
  table : Nat
  name : String
  colOid : Nat
  width : Nat
deriving DecidableEq, Repr

/-- One Arrow record batch: its columns and its row count
(`record.NumRows()`). -/
structure Batch where
  cols : List ACol
  nRows : Nat
deriving DecidableEq

/-- The decoded Arrow IPC stream: its schema fields, record batches, and
the terminal stream status `reader.Err()`. -/
structure ArrowResp where
  fields : List (String × ArrowDT)
  batches : List Batch
  streamErr : Option String

/-- Outcome of the upstream call from `wireHandler`'s point of view:
`executeQuery` failure, `ipc.NewReader` failure, or a decoded stream. -/
inductive UpstreamOutcome
  | httpErr (e : String)
  | decodeErr (e : String)
  | ok (resp : ArrowResp)

/-- The schema-mapping loop of `wireHandler`: map each field's type via
`arrowTypeToPgOid`, aborting on the first unsupported column. -/
def mapSchema : List (String × ArrowDT) → Except String (List WireColumn)
  | [] => .ok []
  | (n, t) :: fs =>
    match arrowTypeToPgOid t with
    | .error e => .error e
    | .ok pgOid =>
      match mapSchema fs with
      | .error e => .error e
      | .ok cols => .ok ({ table := 0, name := n, colOid := pgOid, width := 256 } :: cols)

/-- Embedding of `wireHandler` (`cmd/logfire_pg/main.go`, lines 279–369)
up to the construction of the prepared statement: interceptor check,
upstream execution, Arrow decoding, schema mapping.  The second component
counts invocations of `executeQuery` (the upstream client). -/
def wireHandler (query token : String)
    (upstream : String → String → UpstreamOutcome) :
    Except WireError (List WireColumn × List Batch × Option String) × Nat :=
  let det := DetectPsqlCommandQuery query
  if det.2.2 then
    (.error ⟨.featureNotSupported, .levelError,
      "psql commands are not supported. Detected trying to use: " ++ det.1 ++
        ". Please run instead:\n\n" ++ det.2.1⟩, 0)
  else
    match upstream query token with
    | .httpErr e => (.error ⟨.syntaxErrorOrAccessRuleViolation, .levelFatal, e⟩, 1)
    | .decodeErr e => (.error ⟨.dataException, .levelFatal, e⟩, 1)
    | .ok resp =>
      match mapSchema resp.fields with
      | .error e => (.error ⟨.datatypeMismatch, .levelFatal, e⟩, 1)
      | .ok columns => (.ok (columns, resp.batches, resp.streamErr), 1)

/-- The per-row conversion loop: `row[j] = arrowValueToInterface(col_j, i)`
for each column, with the source's error wrapping
`"failed to convert column %d row %d: %w"`. -/
def convertRow (cols : List ACol) (i : Nat) (j : Nat) : Except String (List GoValue) :=
  match cols with
  | [] => .ok []
  | c :: cs =>
    match arrowValueToInterface c i with
    | .error e =>
      .error ("failed to convert column " ++ toString j ++ " row " ++ toString i ++ ": " ++ e)
    | .ok v =>
      match convertRow cs i (j + 1) with
      | .error e => .error e
      | .ok vs => .ok (v :: vs)

/-- The row loop of one batch: for each remaining row index, convert the
row, emit it (`writer.Row(row)`), and bump `totalRows`; stop at the first
conversion error. -/
def writeBatchRows (cols : List ACol) :
    List Nat → Nat → List (List GoValue) → Nat × List (List GoValue) × Option String
  | [], total, acc => (total, acc, none)
  | i :: is, total, acc =>
    match convertRow cols i 0 with
    | .error e => (total, acc, some e)
    | .ok row => writeBatchRows cols is (total + 1) (acc ++ [row])

/-- The batch loop (`for reader.Next()`). -/
def handleLoop : List Batch → Nat → List (List GoValue) →
    Nat × List (List GoValue) × Option String
  | [], total, acc => (total, acc, none)
  | b :: bs, total, acc =>
    match writeBatchRows b.cols (List.range b.nRows) total acc with
    | (t, a, some e) => (t, a, some e)
    | (t, a, none) => handleLoop bs t a

/-- Embedding of the `handle` closure built by `wireHandler`: stream every
row of every batch through the writer, then check `reader.Err()`, then
`writer.Complete(fmt.Sprintf("SELECT %d", totalRows))`.  Returns the rows
written (the writer trace — rows already written are not retracted on a
mid-stream error) and the completion tag or error. -/
def runHandle (batches : List Batch) (streamErr : Option String) :
    List (List GoValue) × Except String String :=
  match handleLoop batches 0 [] with
  | (_, a, some e) => (a, .error e)
  | (t, a, none) =>
    match streamErr with
    | some e => (a, .error ("error reading arrow stream: " ++ e))
    | none => (a, .ok ("SELECT " ++ toString t))

/-! ## Claims -/

/-- C4: `Authenticate` with an empty username fails with the
invalid-credentials error (`"username cannot be empty"`) and performs no
upstream network call (invocation count 0), for every password and every
upstream behaviour, in both the streaming and the JSON-buffered
implementation. -/
theorem auth_empty_username_no_network
    (password : String) (up : String → String → Except String QueryResponse) :
    authA "" password up = (.deny "username cannot be empty", 0) ∧
    authJ "" password up = (.deny "username cannot be empty", 0) :=
  ⟨rfl, rfl⟩

/-- C8: `DetectPsqlCommandQuery` depends on its input only through
whitespace normalization — two queries with the same normalized form (runs
of whitespace collapsed to single spaces, leading/trailing trimmed) are
detected identically: same command name, same suggested rewrite, same
matched flag. -/
theorem detect_whitespace_invariant (q₁ q₂ : String)
    (h : normalizeWs q₁ = normalizeWs q₂) :
    DetectPsqlCommandQuery q₁ = DetectPsqlCommandQuery q₂ := by
  unfold DetectPsqlCommandQuery
  rw [h]

/-- Witness for C8 at a concrete pair differing only in whitespace. -/
theorem detect_whitespace_invariant_witness :
    DetectPsqlCommandQuery "SELECT \t 1" = DetectPsqlCommandQuery " SELECT 1\n" :=
  detect_whitespace_invariant "SELECT \t 1" " SELECT 1\n" (by decide)

/-- C2 counterexample: `Int32` and `UInt16` are distinct supported scalar
kinds, yet `arrowTypeToPgOid` maps both to the same wire tag `int4` (23),
so the scalar-kind-to-tag mapping is not injective. -/
theorem maptype_scalar_not_injective :
    arrowTypeToPgOid .aint32 = .ok 23 ∧
    arrowTypeToPgOid .auint16 = .ok 23 ∧
    ArrowDT.aint32 ≠ ArrowDT.auint16 := by
  refine ⟨rfl, rfl, by decide⟩

/-- C2 (amended): every supported scalar kind maps deterministically to a
fixed wire tag and every scalar kind outside the enumerated set fails with
an unsupported-type error, in both mappers — but the mapping is not
injective (`Int32`/`UInt16` share `int4`; `Int64`/`UInt32`/`UInt64` share
`int8`; both string kinds share `text`). -/
theorem maptype_scalar_total_stable :
    arrowTypeToPgOid .astring = .ok T_text ∧
    arrowTypeToPgOid .alargestring = .ok T_text ∧
    arrowTypeToPgOid .abool = .ok T_bool ∧
    arrowTypeToPgOid .aint32 = .ok T_int4 ∧
    arrowTypeToPgOid .aint64 = .ok T_int8 ∧
    arrowTypeToPgOid .auint16 = .ok T_int4 ∧
    arrowTypeToPgOid .auint32 = .ok T_int8 ∧
    arrowTypeToPgOid .auint64 = .ok T_int8 ∧
    arrowTypeToPgOid .afloat64 = .ok T_float8 ∧
    arrowTypeToPgOid .adate32 = .ok T_date ∧
    (∀ u tz, arrowTypeToPgOid (.atimestamp u tz) = .ok T_timestamptz) ∧
    isErr (arrowTypeToPgOid .auint8) = true ∧
    isErr (arrowTypeToPgOid .aint8) = true ∧
    isErr (arrowTypeToPgOid .aint16) = true ∧
    isErr (arrowTypeToPgOid .afloat32) = true ∧
    isErr (arrowTypeToPgOid .abinary) = true ∧
    isErr (arrowTypeToPgOid .adate64) = true ∧
    isErr (arrowTypeToPgOid .atime64) = true ∧
    isErr (arrowTypeToPgOid .astruct) = true ∧
    arrowTypeToPgOidJ "c" (.str "Utf8") = .ok T_text ∧
    arrowTypeToPgOidJ "c" (.str "JSON") = .ok T_json ∧
    arrowTypeToPgOidJ "c" (.str "Boolean") = .ok T_bool ∧
    arrowTypeToPgOidJ "c" (.str "Int32") = .ok T_int4 ∧
    arrowTypeToPgOidJ "c" (.str "Int64") = .ok T_int8 ∧
    arrowTypeToPgOidJ "c" (.str "UInt16") = .ok T_int4 ∧
    arrowTypeToPgOidJ "c" (.str "UInt32") = .ok T_int8 ∧
    arrowTypeToPgOidJ "c" (.str "Float64") = .ok T_float8 ∧
    arrowTypeToPgOidJ "c" (.str "Date32") = .ok T_date ∧
    isErr (arrowTypeToPgOidJ "c" (.str "Int16")) = true ∧
    isErr (arrowTypeToPgOidJ "c" (.str "Decimal128")) = true := by
  exact ⟨rfl, rfl, rfl, rfl, rfl, rfl, rfl, rfl, rfl, rfl, fun u tz => rfl,
    rfl, rfl, rfl, rfl, rfl, rfl, rfl, rfl,
    by decide, by decide, by decide, by decide, by decide, by decide, by decide,
    by decide, by decide, by decide, by decide⟩

/-- C10: every non-null integer-typed cell (`Int32`, `Int64`, `UInt16`,
`UInt32`, `UInt64`) is converted through `float64(...)` — i.e. binary64
rounding — before being written, while the column itself is tagged with an
integer wire type (`int4`/`int8`); beyond `2^53` this rounding is lossy
(`2^53 + 1` is emitted as `2^53`). -/
theorem integer_values_stream_as_float64 :
    (∀ v : Int, arrowValueToInterface (.int32Col [some v]) 0 = .ok (.float64 (f64ofInt v))) ∧
    (∀ v : Int, arrowValueToInterface (.int64Col [some v]) 0 = .ok (.float64 (f64ofInt v))) ∧
    (∀ v : Nat, arrowValueToInterface (.uint16Col [some v]) 0 =
      .ok (.float64 (f64ofNat v : Rat))) ∧
    (∀ v : Nat, arrowValueToInterface (.uint32Col [some v]) 0 =
      .ok (.float64 (f64ofNat v : Rat))) ∧
    (∀ v : Nat, arrowValueToInterface (.uint64Col [some v]) 0 =
      .ok (.float64 (f64ofNat v : Rat))) ∧
    arrowTypeToPgOid .aint32 = .ok T_int4 ∧
    arrowTypeToPgOid .aint64 = .ok T_int8 ∧
    arrowTypeToPgOid .auint16 = .ok T_int4 ∧
    arrowTypeToPgOid .auint32 = .ok T_int8 ∧
    arrowTypeToPgOid .auint64 = .ok T_int8 ∧
    f64ofNat (2 ^ 53 + 1) = 2 ^ 53 ∧ (2 ^ 53 + 1 : Nat) ≠ (2 ^ 53 : Nat) := by
  exact ⟨fun v => rfl, fun v => rfl, fun v => rfl, fun v => rfl, fun v => rfl,
    rfl, rfl, rfl, rfl, rfl, by decide, by decide⟩

/-- C6: `arrowValueToInterface` returns Go `nil` (wire null) for a null
cell of every column type — the validity check precedes the type switch —
and a null element inside a list cell is rendered as JSON `null` within
the serialized array value. -/
theorem mapvalue_null_returns_null :
    (∀ (col : ACol) (i : Nat), col.isNull i = true →
      arrowValueToInterface col i = .ok .nil) ∧
    arrowValueToInterface (.listCol [some (0, 2)] (.strCol [none, some "a"])) 0 =
      .ok (.str "[null,\"a\"]") := by
  constructor
  · intro col i h
    unfold arrowValueToInterface
    unfold convFuel
    simp [h]
  · decide

/-- Witness for C6: a null `Int64` cell converts to wire null. -/
theorem mapvalue_null_returns_null_witness :
    arrowValueToInterface (.int64Col [none]) 0 = .ok .nil :=
  mapvalue_null_returns_null.1 (.int64Col [none]) 0 (by decide)

/-- C5: whenever the interceptor matches a query, `wireHandler` fails it
with a `FeatureNotSupported`-class error whose message embeds the
suggested rewrite, and the upstream client is never invoked (invocation
count 0); the canonical `\dt` catalog query is matched with suggested
rewrite `"show tables;"`. -/
theorem psql_command_rejected_without_upstream :
    (∀ (query token : String) (up : String → String → UpstreamOutcome),
      (DetectPsqlCommandQuery query).2.2 = true →
      wireHandler query token up =
        (.error ⟨.featureNotSupported, .levelError,
          "psql commands are not supported. Detected trying to use: " ++
            (DetectPsqlCommandQuery query).1 ++ ". Please run instead:\n\n" ++
            (DetectPsqlCommandQuery query).2.1⟩, 0)) ∧
    DetectPsqlCommandQuery dtPattern = ("\\dt", "show tables;", true) := by
  constructor
  · intro query token up h
    unfold wireHandler
    simp [h]
  · decide

/-- Witness for C5: the canonical `\dt` catalog query is rejected without
contacting upstream. -/
theorem psql_command_rejected_without_upstream_witness :
    wireHandler dtPattern "tok" (fun _ _ => .httpErr "unreachable") =
      (.error ⟨.featureNotSupported, .levelError,
        "psql commands are not supported. Detected trying to use: " ++
          (DetectPsqlCommandQuery dtPattern).1 ++ ". Please run instead:\n\n" ++
          (DetectPsqlCommandQuery dtPattern).2.1⟩, 0) :=
  psql_command_rejected_without_upstream.1 dtPattern "tok"
    (fun _ _ => .httpErr "unreachable") (by decide)

/-- C7 counterexample: for a `Timestamp` column whose declared unit is
`Nanosecond`, the raw value 1500 (1.5 µs) is *not* truncated to
microseconds: the conversion hardcodes `ToTime(arrow.Microsecond)` and
renders the value as 1500 µs (`.001500`), not as the truncated 1 µs
(`.000001`). -/
theorem timestamp_subunit_not_truncated :
    arrowValueToInterface (.tsCol .nanosecond "UTC" [some 1500]) 0 =
      .ok (.str "1970-01-01T00:00:00.001500Z") ∧
    tsFormat (1500 / 1000) = "1970-01-01T00:00:00.000001Z" ∧
    ("1970-01-01T00:00:00.001500Z" : String) ≠ "1970-01-01T00:00:00.000001Z" := by
  exact ⟨by decide, by decide, by decide⟩

/-- C7 (amended): every non-null `Timestamp` cell is rendered as a
fixed-precision UTC string with exactly six fractional (microsecond)
digits and a trailing `Z`, with the raw value interpreted as microseconds
since the epoch regardless of the column's declared unit and timezone
(non-microsecond units are misscaled rather than truncated). -/
theorem timestamp_rendering (u₁ u₂ : TimeUnit) (tz₁ tz₂ : String) :
    (∀ cells i, arrowValueToInterface (.tsCol u₁ tz₁ cells) i =
      arrowValueToInterface (.tsCol u₂ tz₂ cells) i) ∧
    (∀ v, arrowValueToInterface (.tsCol u₁ tz₁ [some v]) 0 = .ok (.str (tsFormat v))) ∧
    (∀ v, tsFormat v = tsDateTimePart v ++ "." ++ micro6 (tsSplit v).2.2 ++ "Z") ∧
    (∀ n, (micro6 n).length = 6) ∧
    tsFormat 0 = "1970-01-01T00:00:00.000000Z" := by
  exact ⟨fun cells i => rfl, fun v => rfl, fun v => rfl, fun n => rfl, by decide⟩

/-- The row loop's counter tracks the writer trace: the increase of
`totalRows` equals the number of rows appended to the trace. -/
theorem writeBatchRows_count (cols : List ACol) (is : List Nat) :
    ∀ (total : Nat) (acc : List (List GoValue)),
      (writeBatchRows cols is total acc).1 + acc.length =
        total + (writeBatchRows cols is total acc).2.1.length := by
  induction is with
  | nil => intro total acc; simp [writeBatchRows]
  | cons i is ih =>
    intro total acc
    unfold writeBatchRows
    cases h : convertRow cols i 0 with
    | error e => simp
    | ok row =>
      have := ih (total + 1) (acc ++ [row])
      simp only [List.length_append, List.length_cons, List.length_nil] at this
      simp only []
      omega

/-- The batch loop preserves the same counter/trace relation. -/
theorem handleLoop_count (bs : List Batch) :
    ∀ (total : Nat) (acc : List (List GoValue)),
      (handleLoop bs total acc).1 + acc.length =
        total + (handleLoop bs total acc).2.1.length := by
  induction bs with
  | nil => intro total acc; simp [handleLoop]
  | cons b bs ih =>
    intro total acc
    unfold handleLoop
    have hw := writeBatchRows_count b.cols (List.range b.nRows) total acc
    cases h : writeBatchRows b.cols (List.range b.nRows) total acc with
    | mk t rest =>
      cases rest with
      | mk a st =>
        rw [h] at hw
        cases st with
        | none =>
          have := ih t a
          simp only [] at hw ⊢
          omega
        | some e => simpa using hw

/-- C9: whenever the row-streaming handle completes successfully, the
completion tag it emits is exactly `"SELECT <n>"` where `n` is the number
of rows written to the wire for that query (including `n = 0` for an empty
result). -/
theorem completion_tag_matches_rows_written
    (batches : List Batch) (streamErr : Option String)
    (rows : List (List GoValue)) (tag : String)
    (h : runHandle batches streamErr = (rows, .ok tag)) :
    tag = "SELECT " ++ toString rows.length := by
  have hc := handleLoop_count batches 0 []
  unfold runHandle at h
  cases hl : handleLoop batches 0 [] with
  | mk t rest =>
    cases rest with
    | mk a st =>
      rw [hl] at h hc
      simp only [List.length_nil, Nat.add_zero, Nat.zero_add] at hc
      cases st with
      | some e => simp at h
      | none =>
        cases streamErr with
        | some e => simp at h
        | none =>
          simp only [Prod.mk.injEq, Except.ok.injEq] at h
          obtain ⟨hrows, htag⟩ := h
          subst hrows
          rw [← htag, hc]

/-- Witness for C9: two rows streamed, completion tag `"SELECT 2"`. -/
theorem completion_tag_matches_rows_written_witness :
    ("SELECT 2" : String) =
      "SELECT " ++ toString ([[GoValue.str "x"], [GoValue.str "y"]] : List (List GoValue)).length :=
  completion_tag_matches_rows_written [⟨[.strCol [some "x", some "y"]], 2⟩] none
    [[GoValue.str "x"], [GoValue.str "y"]] "SELECT 2" (by decide)

/-- C1 counterexample: the streaming implementation's `auth` closes the
probe response body unread, so it authorizes the connection for a probe
result with zero columns (any successful probe call authorizes),
contradicting "authorizes if and only if the result has exactly one column
and exactly one row and that value equals 1". -/
theorem auth_streaming_ignores_probe_shape :
    authA "token" "tok" (fun _ _ => .ok ⟨[]⟩) = (.allow "tok", 1) ∧
    probeShapeOk ⟨[]⟩ = false := by
  exact ⟨rfl, rfl⟩

/-- C1 (amended): the JSON-buffered implementation's `auth` authorizes if
and only if the probe result has exactly one column with exactly one
value and that value is the JSON number 1, and it denies on every upstream
error; the streaming implementation authorizes exactly when the probe call
itself succeeds, without inspecting the result, and likewise denies on
upstream error. -/
theorem auth_probe_validation (u pw : String) (hu : u ≠ "") :
    (∀ resp, (authJ u pw (fun _ _ => .ok resp)).1 = .allow pw ↔ probeShapeOk resp = true) ∧
    (∀ e, authJ u pw (fun _ _ => .error e) =
      (.deny ("authentication failed: " ++ e), 1)) ∧
    (∀ resp, authA u pw (fun _ _ => .ok resp) = (.allow pw, 1)) ∧
    (∀ e, authA u pw (fun _ _ => .error e) =
      (.deny ("authentication failed: " ++ e), 1)) := by
  refine ⟨?_, ?_, ?_, ?_⟩
  · intro resp
    obtain ⟨cols⟩ := resp
    match cols with
    | [] => simp [authJ, probeShapeOk, if_neg hu]
    | c₁ :: c₂ :: rest => simp [authJ, probeShapeOk, if_neg hu]
    | [c] =>
      obtain ⟨nm, dt, nb, vals⟩ := c
      match vals with
      | [] => simp [authJ, probeShapeOk, if_neg hu]
      | v₁ :: v₂ :: rest => simp [authJ, probeShapeOk, if_neg hu]
      | [v] =>
        cases v with
        | num q =>
          by_cases h3 : q = 1
          · simp [authJ, probeShapeOk, if_neg hu, h3]
          · simp [authJ, probeShapeOk, if_neg hu, h3]
        | _ => simp [authJ, probeShapeOk, if_neg hu]
  · intro e; rw [authJ, if_neg hu]
  · intro resp; rw [authA, if_neg hu]
  · intro e; rw [authA, if_neg hu]

/-- Witness for C1: a well-shaped probe result (one column, one value,
the number 1) is authorized by the JSON-buffered `auth`. -/
theorem auth_probe_validation_witness :
    (authJ "token" "tok"
      (fun _ _ => .ok ⟨[⟨"?column?", .str "Int64", false, [.num 1]⟩]⟩)).1 =
      .allow "tok" :=
  ((auth_probe_validation "token" "tok" (by decide)).1
    ⟨[⟨"?column?", .str "Int64", false, [.num 1]⟩]⟩).mpr (by decide)

/-- The JSON-descriptor encoding of `List(inner)` as the upstream sends it:
`{"List": {"name": "item", "datatype": <inner>, "nullable": true}}`. -/
def jlistDT (inner : Jv) : Jv :=
  .obj [("List", .obj [("name", .str "item"), ("datatype", inner), ("nullable", .bool true)])]

/-- Any successful result of the streaming mapper on a `List` type is one
of the six array OIDs of the inner-OID conversion switch. -/
theorem alist_ok_oid_mem (t : ArrowDT) (o : Nat)
    (h : arrowTypeToPgOid (.alist t) = .ok o) :
    o = T__text ∨ o = T__bool ∨ o = T__int4 ∨ o = T__int8 ∨ o = T__float8 ∨ o = T__date := by
  rw [arrowTypeToPgOid] at h
  split at h
  · exact absurd h (by simp)
  · split_ifs at h <;> simp_all

/-- A list of lists always fails the streaming mapper: the inner
conversion yields an array OID, which the array-conversion switch does not
accept. -/
theorem alist_alist_err (t : ArrowDT) :
    isErr (arrowTypeToPgOid (.alist (.alist t))) = true := by
  rw [arrowTypeToPgOid]
  cases hi : arrowTypeToPgOid (.alist t) with
  | error e => rfl
  | ok o =>
    rcases alist_ok_oid_mem t o hi with h | h | h | h | h | h <;>
      subst h <;> decide

/-- C3 counterexample: in the JSON-buffered mapper, a `List` whose inner
kind is `JSON` does *not* fail — it maps successfully to the
array-of-json wire tag (OID 199). -/
theorem list_of_json_maps_successfully :
    arrowTypeToPgOidJ "c" (jlistDT (.str "JSON")) = .ok T__json ∧
    T__json = 199 := ⟨rfl, rfl⟩

/-- C3 (amended): in both mappers, a `List` of a supported scalar kind
with an array-tag equivalent maps to the corresponding array tag, and
lists of lists and lists of unsupported kinds fail; but the two mappers
disagree on JSON: the streaming mapper has no JSON kind (any such column
is already unsupported as a scalar), while the JSON-buffered mapper maps
`List(JSON)` successfully to the array-of-json tag.  In the streaming
mapper a `List(Timestamp)` also fails (its scalar tag has no array
equivalent). -/
theorem maptype_list_mapping :
    arrowTypeToPgOid (.alist .astring) = .ok T__text ∧
    arrowTypeToPgOid (.alist .alargestring) = .ok T__text ∧
    arrowTypeToPgOid (.alist .abool) = .ok T__bool ∧
    arrowTypeToPgOid (.alist .aint32) = .ok T__int4 ∧
    arrowTypeToPgOid (.alist .auint16) = .ok T__int4 ∧
    arrowTypeToPgOid (.alist .aint64) = .ok T__int8 ∧
    arrowTypeToPgOid (.alist .auint32) = .ok T__int8 ∧
    arrowTypeToPgOid (.alist .auint64) = .ok T__int8 ∧
    arrowTypeToPgOid (.alist .afloat64) = .ok T__float8 ∧
    arrowTypeToPgOid (.alist .adate32) = .ok T__date ∧
    (∀ u tz, isErr (arrowTypeToPgOid (.alist (.atimestamp u tz))) = true) ∧
    (∀ t, isErr (arrowTypeToPgOid (.alist (.alist t))) = true) ∧
    (∀ t, isErr (arrowTypeToPgOid t) = true →
      isErr (arrowTypeToPgOid (.alist t)) = true) ∧
    arrowTypeToPgOidJ "c" (jlistDT (.str "Utf8")) = .ok T__text ∧
    arrowTypeToPgOidJ "c" (jlistDT (.str "JSON")) = .ok T__json ∧
    arrowTypeToPgOidJ "c" (jlistDT (.str "Boolean")) = .ok T__bool ∧
    arrowTypeToPgOidJ "c" (jlistDT (.str "Int32")) = .ok T__int4 ∧
    arrowTypeToPgOidJ "c" (jlistDT (.str "Int64")) = .ok T__int8 ∧
    arrowTypeToPgOidJ "c" (jlistDT (.str "UInt16")) = .ok T__int4 ∧
    arrowTypeToPgOidJ "c" (jlistDT (.str "UInt32")) = .ok T__int8 ∧
    arrowTypeToPgOidJ "c" (jlistDT (.str "Float64")) = .ok T__float8 ∧
    arrowTypeToPgOidJ "c" (jlistDT (.str "Date32")) = .ok T__date ∧
    isErr (arrowTypeToPgOidJ "c" (jlistDT (.str "Int16"))) = true ∧
    isErr (arrowTypeToPgOidJ "c" (jlistDT (jlistDT (.str "Utf8")))) = true := by
  refine ⟨rfl, rfl, rfl, rfl, rfl, rfl, rfl, rfl, rfl, rfl,
    fun u tz => rfl, alist_alist_err, ?_,
    rfl, rfl, rfl, rfl, rfl, rfl, rfl, rfl, rfl, by decide, by decide⟩
  intro t h
  rw [arrowTypeToPgOid]
  cases hi : arrowTypeToPgOid t with
  | error e => rfl
  | ok io => rw [hi] at h; exact absurd h (by simp [isErr])

/-- Witness for C3: the error-propagation conjunct at a concrete
unsupported inner kind (`List(Struct)` fails). -/
theorem maptype_list_mapping_witness :
    isErr (arrowTypeToPgOid (.alist .astruct)) = true :=
  maptype_list_mapping.2.2.2.2.2.2.2.2.2.2.2.2.1 .astruct (by decide)

end LogfirePg
